import Mathlib

/-!
# Feedback Transformation Pipeline — formal model

Shallow embedding of the core of `empathetic_code_reviewer`
(`advanced_reviewer.py`, with the sibling `ultimate_reviewer.py` where a claim
cites it): comment severity classification, lexical code-pattern detection,
tone selection, encouragement policy, and deterministic prompt/report
assembly.  Strings are modelled by Lean `String`; Python's `in` substring
test is modelled by list-infix on the underlying character lists; the
character classes of the regular expressions (`\s`, `\d`, `\b` word
characters) are modelled at ASCII level, which is exact on the repository's
own pattern alphabet.
-/

namespace EmpathReviewer

/-- Python regex `\s` class (ASCII range): space, tab, newline, carriage
return, vertical tab, form feed. -/
def isPySpace (c : Char) : Bool :=
  c = ' ' || c = '\t' || c = '\n' || c = '\r' || c = '\x0b' || c = '\x0c'

/-- Regex word character (`\w`, used for `\b` boundaries), ASCII range:
letters, digits, underscore. -/
def isWordChar (c : Char) : Bool :=
  c.isAlphanum || c = '_'

/-- Python `str.lower()` modelled at ASCII level (`Char.toLower` maps `A`–`Z`;
all keywords in the severity table are ASCII lowercase). -/
def pyLower (s : String) : String :=
  ⟨s.data.map Char.toLower⟩

/-- Boolean test that `n` is a prefix of `h` (character lists). -/
def prefixOfB : List Char → List Char → Bool
  | [], _ => true
  | _ :: _, [] => false
  | a :: as, b :: bs => a = b && prefixOfB as bs

/-- Boolean test that `n` occurs contiguously inside `h` (character lists). -/
def infixOfB (n : List Char) : List Char → Bool
  | [] => prefixOfB n []
  | b :: bs => prefixOfB n (b :: bs) || infixOfB n bs

/-- Python's `needle in hay` substring test (boolean). -/
def containsB (hay needle : String) : Bool :=
  infixOfB needle.data hay.data

/-- Holds when `needle` occurs contiguously inside `hay` (propositional form of
Python's `in` substring test). -/
def ContainsStr (hay needle : String) : Prop :=
  needle.data <:+: hay.data

instance (hay needle : String) : Decidable (ContainsStr hay needle) :=
  inferInstanceAs (Decidable (needle.data <:+: hay.data))

/-- The `class CommentSeverity(Enum)` scale — the closed four-value severity scale. -/
inductive CommentSeverity where
  | gentle
  | moderate
  | harsh
  | critical
deriving DecidableEq, Repr, Fintype

/-- The `.value` string of each `CommentSeverity` member. -/
def CommentSeverity.value : CommentSeverity → String
  | .gentle => "gentle"
  | .moderate => "moderate"
  | .harsh => "harsh"
  | .critical => "critical"

/-- Harshness rank of a severity (CRITICAL harshest).  The spec's §3 order
"GENTLE, MODERATE, HARSH, CRITICAL, ordered by increasing harshness". -/
def sevRank : CommentSeverity → Nat
  | .gentle => 0
  | .moderate => 1
  | .harsh => 2
  | .critical => 3

/-- The keyword set attached to each severity in `self.severity_keywords`. -/
def keywordsOf : CommentSeverity → List String
  | .critical => ["terrible", "awful", "horrible", "stupid", "idiotic", "garbage"]
  | .harsh => ["bad", "wrong", "inefficient", "poor", "sloppy", "messy"]
  | .moderate => ["should", "could", "consider", "might want to", "try"]
  | .gentle => ["perhaps", "maybe", "suggestion", "alternatively"]

/-- The `self.severity_keywords` table — the dict in its Python 3.7+ insertion
(= iteration) order: CRITICAL, HARSH, MODERATE, GENTLE. -/
def severity_keywords : List (CommentSeverity × List String) :=
  [(.critical, keywordsOf .critical),
   (.harsh, keywordsOf .harsh),
   (.moderate, keywordsOf .moderate),
   (.gentle, keywordsOf .gentle)]

/-- Model of `any(keyword in comment_lower for keyword in keywords)` applied to the
already-lowercased comment. -/
def keywordMatch (keywords : List String) (commentLower : String) : Bool :=
  keywords.any (fun k => containsB commentLower k)

/-- Model of `AdvancedEmpathethicReviewer.analyze_comment_severity`: lowercase the
comment, walk the `severity_keywords` dict in iteration order, return the
first severity whose keyword set has a substring match, else GENTLE. -/
def analyze_comment_severity (comment : String) : CommentSeverity :=
  let comment_lower := pyLower comment
  match severity_keywords.find? (fun p => keywordMatch p.2 comment_lower) with
  | some p => p.1
  | none => .gentle

/-!
## Pattern Detector

`self.code_patterns` maps five names to regular expressions searched with
`re.search(regex, code, re.MULTILINE)`.  Each regex is embedded by its
match semantics (`re.MULTILINE` only changes `^`/`$`, which none of the
five patterns use):

* `'for .+ in .+:\s*if .+:\s*.+\.append'` and `'for .+ in .+:\s*for .+ in'`
  use only literals, `.+` (one or more non-newline characters) and `\s*`:
  a token-list matcher with explicit split search is boolean-equivalent to
  the backtracking regex engine.
* `'== True|== False'` is an alternation of two literals, i.e. a
  two-substring test.
* `'\b[a-z]\b(?!\s*=)'` and `'\b\d{2,}\b'` are embedded by direct scans
  that encode the word-boundary and lookahead conditions.
-/

/-- Token of the literal/`.+`/`\s*` fragment of regex syntax used by the
`list_comprehension` and `nested_loops` patterns. -/
inductive RegexTok where
  | lit (s : String)
  | dotPlus
  | wsStar
deriving DecidableEq, Repr

/-- Match a token sequence against a prefix of `input` (any trailing rest
is allowed, as in `re.search`).  `.+` consumes between 1 and
line-length characters (`.` does not match a newline); `\s*` consumes
between 0 and whitespace-run-length characters; trying every split is
boolean-equivalent to greedy matching with backtracking. -/
def matchToks : List RegexTok → List Char → Bool
  | [], _ => true
  | .lit s :: rest, input =>
      prefixOfB s.data input && matchToks rest (input.drop s.data.length)
  | .dotPlus :: rest, input =>
      (List.range (input.takeWhile (fun c => c ≠ '\n')).length).any
        (fun k => matchToks rest (input.drop (k + 1)))
  | .wsStar :: rest, input =>
      (List.range ((input.takeWhile isPySpace).length + 1)).any
        (fun k => matchToks rest (input.drop k))

/-- Model of `re.search`: try every start position. -/
def regexSearch (toks : List RegexTok) (code : String) : Bool :=
  (List.range (code.data.length + 1)).any (fun i => matchToks toks (code.data.drop i))

/-- Token form of `'for .+ in .+:\s*if .+:\s*.+\.append'`. -/
def list_comprehension_toks : List RegexTok :=
  [.lit "for ", .dotPlus, .lit " in ", .dotPlus, .lit ":", .wsStar,
   .lit "if ", .dotPlus, .lit ":", .wsStar, .dotPlus, .lit ".append"]

/-- Token form of `'for .+ in .+:\s*for .+ in'`. -/
def nested_loops_toks : List RegexTok :=
  [.lit "for ", .dotPlus, .lit " in ", .dotPlus, .lit ":", .wsStar,
   .lit "for ", .dotPlus, .lit " in"]

/-- Pattern `'== True|== False'`: the alternation of two literal regexes matches
iff either literal occurs as a substring. -/
def boolean_redundancy_match (code : String) : Bool :=
  containsB code "== True" || containsB code "== False"

/-- The lookahead body `\s*=`: matches at a position iff after the (unique)
leading whitespace run there is an `=` (an `=` is not whitespace, so no
shorter split can succeed). -/
def wsThenEq (cs : List Char) : Bool :=
  match cs.dropWhile isPySpace with
  | '=' :: _ => true
  | _ => false

/-- Boundary `\b` to the left of a word character: start of text or a preceding
non-word character. -/
def boundaryL : Option Char → Bool
  | none => true
  | some p => !isWordChar p

/-- Boundary `\b` to the right of a word character: end of text or a following
non-word character. -/
def boundaryR : List Char → Bool
  | [] => true
  | d :: _ => !isWordChar d

/-- Pattern `'\b[a-z]\b(?!\s*=)'`: scan for a lowercase letter with word
boundaries on both sides whose right context does not match `\s*=`.
`prev` is the character before the current position. -/
def single_letter_search : Option Char → List Char → Bool
  | _, [] => false
  | prev, c :: cs =>
      (boundaryL prev && ('a' ≤ c && c ≤ 'z') && boundaryR cs && !wsThenEq cs)
        || single_letter_search (some c) cs

/-- After the first two digits of a candidate `\d{2,}` match: consume the
remaining digits of the run, then require `\b` (a digit followed by a word
character kills every suffix of the run too, so checking the maximal run
is boolean-equivalent to backtracking). -/
def digitRunEndOk : List Char → Bool
  | [] => true
  | c :: cs => if c.isDigit then digitRunEndOk cs else !isWordChar c

/-- Pattern `'\b\d{2,}\b'`: scan for a run of two or more digits with word
boundaries on both sides. -/
def magic_numbers_search : Option Char → List Char → Bool
  | _, [] => false
  | prev, c :: cs =>
      (boundaryL prev && c.isDigit &&
        (match cs with
         | [] => false
         | d :: ds => d.isDigit && digitRunEndOk ds))
        || magic_numbers_search (some c) cs

/-- Model of `AdvancedEmpathethicReviewer.detect_code_patterns`: one flag per
configured pattern, in the dict's insertion order. -/
def detect_code_patterns (code : String) : List (String × Bool) :=
  [("list_comprehension", regexSearch list_comprehension_toks code),
   ("boolean_redundancy", boolean_redundancy_match code),
   ("single_letter_vars", single_letter_search none code.data),
   ("magic_numbers", magic_numbers_search none code.data),
   ("nested_loops", regexSearch nested_loops_toks code)]



/-!
## Tone Selector
-/

/-- The `tone_map` dict of `get_contextual_tone`, in insertion order. -/
def tone_map : List (CommentSeverity × String) :=
  [(.critical, "I understand this feedback might have felt harsh. Let's reframe it constructively"),
   (.harsh, "This is actually a great learning opportunity"),
   (.moderate, "Good observation! Here's how we can build on it"),
   (.gentle, "Nice suggestion! Let's explore this further")]

/-- Model of `AdvancedEmpathethicReviewer.get_contextual_tone`:
`tone_map.get(severity, "Let's look at this feedback")` — dict lookup with a
silent default for unmapped keys. -/
def get_contextual_tone (severity : CommentSeverity) : String :=
  (List.lookup severity tone_map).getD "Let's look at this feedback"

/-!
## Prompt/Report Composer helpers
-/

/-- Python `enumerate` starting at `n`. -/
def enumFrom : Nat → List α → List (Nat × α)
  | _, [] => []
  | n, x :: xs => (n, x) :: enumFrom (n + 1) xs

/-- Python `enumerate(l)`. -/
def pyEnumerate (l : List α) : List (Nat × α) :=
  enumFrom 0 l

/-- Python `sep.join(l)`. -/
def pyJoin (sep : String) : List String → String
  | [] => ""
  | [x] => x
  | x :: y :: xs => x ++ sep ++ pyJoin sep (y :: xs)

/-- One entry of `severity_analysis`:
`f"Comment {i+1}: {severity.value} severity - {tone}"`. -/
def severityLine (i : Nat) (comment : String) : String :=
  let severity := analyze_comment_severity comment
  "Comment " ++ toString (i + 1) ++ ": " ++ severity.value ++ " severity - "
    ++ get_contextual_tone severity

/-- One entry of `comments_list`: `f"{i+1}. \"{comment}\""`. -/
def commentEntry (i : Nat) (comment : String) : String :=
  toString (i + 1) ++ ". \"" ++ comment ++ "\""

/-- Model of `[k for k, v in patterns.items() if v]` over the detector output. -/
def activePatterns (code : String) : List String :=
  ((detect_code_patterns code).filter (fun p => p.2)).map Prod.fst

/-- The literal `**DETECTED PATTERNS:**` value:
`', '.join(active_patterns) if active_patterns else 'Clean basic structure'`. -/
def detectedPatternsText (code : String) : String :=
  if (activePatterns code).isEmpty then "Clean basic structure"
  else pyJoin ", " (activePatterns code)

/-- Static template text of `create_master_prompt` before `{code_snippet}`. -/
def promptHeader : String :=
  "You are a world-class senior software engineer and mentor known for transforming junior developers into confident programmers. You have a gift for turning criticism into growth opportunities.\n\n**CODE ANALYSIS:**\n```python\n"

/-- Static template text between `{code_snippet}` and the patterns value. -/
def promptAfterCode : String :=
  "\n```\n\n**DETECTED PATTERNS:** "

/-- Static template text between the patterns value and `{severity_list}`. -/
def promptAfterPatterns : String :=
  "\n\n**COMMENT SEVERITY ANALYSIS:**\n"

/-- Static template text between `{severity_list}` and `{comments_list}`. -/
def promptAfterSeverity : String :=
  "\n\n**ORIGINAL COMMENTS TO TRANSFORM:**\n"

/-- Static template text between `{comments_list}` and the quoted first
comment. -/
def promptAfterComments : String :=
  "\n\n**YOUR MISSION:**\nTransform each comment into a mentoring masterpiece. For each comment, create:\n\n---\n### 🔍 Analysis of Comment: \""

/-- Static template text after the quoted first comment, to the end of the
master prompt. -/
def promptTail : String :=
  "\"\n\n**💚 Positive Rephrasing:**\n[Start with genuine praise for what they got right, then gently introduce the improvement. Match your tone to the original comment's severity - be extra encouraging for harsh comments]\n\n**🧠 The 'Why' (Software Engineering Principle):**\n[Explain the deeper principle: performance, readability, maintainability, team collaboration, debugging ease, etc. Include specific impacts like \"with 10,000+ users, this could save 2 seconds per request\"]\n\n**✨ Suggested Improvement:**\n```python\n[Show the improved code with clear comments explaining the changes]\n```\n\n**📚 Learning Resources:**\n- [Specific PEP-8 section, documentation, or concept link]\n- [Additional learning resource if relevant]\n\n**🎯 Pro Tip:** [One advanced insight that shows deep understanding]\n\n---\n\n**ADVANCED REQUIREMENTS:**\n1. Adjust tone based on comment severity (harsher comments need more encouragement)\n2. Reference the detected code patterns naturally\n3. Provide specific performance/readability impacts\n4. Include at least one \"pro tip\" that shows senior-level insight\n5. Use emojis strategically for visual appeal and engagement\n6. End each section with actionable next steps\n\n**TONE CALIBRATION:**\n- Critical/Harsh comments: Extra encouraging, emphasize learning journey\n- Moderate comments: Collaborative and educational\n- Gentle comments: Build on the good observation\n\nCreate the analysis for ALL comments now:"

/-- Model of `AdvancedEmpathethicReviewer.create_master_prompt`: the deterministic
instruction payload for the completion collaborator. -/
def create_master_prompt (code_snippet : String) (comments : List String) : String :=
  let severity_analysis := (pyEnumerate comments).map (fun ic => severityLine ic.1 ic.2)
  let comments_list := pyJoin "\n" ((pyEnumerate comments).map (fun ic => commentEntry ic.1 ic.2))
  let severity_list := pyJoin "\n" severity_analysis
  promptHeader ++ code_snippet ++ promptAfterCode ++ detectedPatternsText code_snippet
    ++ promptAfterPatterns ++ severity_list ++ promptAfterSeverity ++ comments_list
    ++ promptAfterComments ++ (comments.headD "PLACEHOLDER") ++ promptTail

/-!
## Encouragement Policy and summary
-/

/-- Model of `total_severity`: the count of comments whose severity is HARSH or
CRITICAL (`sum(1 for comment in comments if ... in [HARSH, CRITICAL])`). -/
def total_severity (comments : List String) : Nat :=
  comments.countP
    (fun comment =>
      [CommentSeverity.harsh, CommentSeverity.critical].contains
        (analyze_comment_severity comment))

/-- The three-way threshold of `create_summary_analysis` (advanced and
ultimate reviewers compute it identically):
`total_severity > len(comments) * 0.6` → extra_high, else
`total_severity > 0` → high, else standard.  The literal `0.6` is modelled
as the exact rational `3/5`. -/
def encouragement_level (comments : List String) : String :=
  if (total_severity comments : ℚ) > (comments.length : ℚ) * 0.6 then "extra_high"
  else if total_severity comments > 0 then "high"
  else "standard"

/-- The `summary_prompts` dict of
`AdvancedEmpathethicReviewer.create_summary_analysis`, insertion order. -/
def summary_prompts : List (String × String) :=
  [("extra_high", "This developer faced some tough feedback but shows solid problem-solving instincts. Focus on the growth journey and celebrate their logical thinking."),
   ("high", "This developer is on a great learning path with some excellent fundamentals. The improvements suggested will level up their skills significantly."),
   ("standard", "This developer writes clean, logical code and is ready for some advanced optimizations. Great foundation to build upon!")]

/-- Static summary template before `{summary_prompts[encouragement_level]}`. -/
def summaryHeader : String :=
  "\n## 🌟 Overall Growth Summary & Next Steps\n\n"

/-- Static summary template after the selected paragraph. -/
def summaryTail : String :=
  "\n\n**🎯 Key Themes from This Review:**\n- **Code Organization**: Moving toward more Pythonic patterns\n- **Performance Awareness**: Understanding computational complexity\n- **Readability Focus**: Writing code that tells a story\n\n**🚀 Recommended Learning Path:**\n1. **This Week**: Practice list comprehensions and boolean operations\n2. **Next Week**: Dive deeper into Python's built-in functions and itertools\n3. **This Month**: Explore algorithmic complexity and optimization patterns\n\n**💡 Senior Developer Insight:**\nThe patterns in this code suggest you're thinking algorithmically, which is fantastic! The next level is thinking about code as communication - every variable name, every function structure should tell your future self (and your teammates) a clear story.\n\n---\n*Remember: Every expert was once a beginner. The fact that you're actively seeking feedback shows you're on the path to mastery! 🌟*\n"

/-- Model of `AdvancedEmpathethicReviewer.create_summary_analysis`.  Its first line
computes `patterns = self.detect_code_patterns(code_snippet)` and never
uses the result; the Python dict access `summary_prompts[encouragement_level]`
always succeeds because `encouragement_level` is one of the three keys
(the `getD ""` branch is unreachable). -/
def create_summary_analysis (code_snippet : String) (comments : List String) : String :=
  let _patterns := detect_code_patterns code_snippet
  summaryHeader ++ ((List.lookup (encouragement_level comments) summary_prompts).getD "")
    ++ summaryTail

/-- Static report template before `{code_snippet}`. -/
def reportHeader : String :=
  "# 🌟 Empathetic Code Review Report\n\n*Transforming criticism into growth opportunities*\n\n## 📝 Original Code Under Review\n```python\n"

/-- Static report template between `{code_snippet}` and `{ai_response}`. -/
def reportAfterCode : String :=
  "\n```\n\n"

/-- Static report template after `{summary}`, to the end of the report. -/
def reportTail : String :=
  "\n\n---\n**🛠 Generated by Advanced Empathetic Code Reviewer v2.0**\n*Built for the \"Freedom from Mundane\" Hackathon*\n"

/-- Model of `AdvancedEmpathethicReviewer.process_review`.  The collaborator call
`self.call_ollama(master_prompt)` is the single external dependency
(spec §6 `complete(prompt) -> text`); `call_ollama` returns its body on
success and an error placeholder string (`"API Error: ..."`,
`"Connection error: ..."`, `"Unexpected error: ..."`) on failure, so the
report builder is modelled as a function of that opaque returned text. -/
def process_review (ai_response : String) (code_snippet : String)
    (review_comments : List String) : String :=
  let summary := create_summary_analysis code_snippet review_comments
  reportHeader ++ code_snippet ++ reportAfterCode ++ ai_response ++ "\n\n"
    ++ summary ++ reportTail

/-!
## Input validation (`main`) and the classified-comment view
-/

/-- Model of `required_keys = ['code_snippet', 'review_comments']`. -/
def required_keys : List String :=
  ["code_snippet", "review_comments"]

/-- The validation loop of `main`: raise on the first required key missing
from the input object; the values (in particular an empty comments list)
are never inspected. -/
def validate_input (keys : List String) : Except String Unit :=
  match required_keys.find? (fun k => !(keys.contains k)) with
  | some k => Except.error ("Missing required key: " ++ k)
  | none => Except.ok ()

/-- Spec §3 `ClassifiedComment`: (index, raw text, Severity, tone phrase). -/
structure ClassifiedComment where
  index : Nat
  raw : String
  severity : CommentSeverity
  tone : String
deriving DecidableEq, Repr

/-- The per-comment classification pass of `create_master_prompt`
(`for i, comment in enumerate(comments): severity = ...; tone = ...`),
viewed as producing the spec's ClassifiedComment records. -/
def classifyAll (comments : List String) : List ClassifiedComment :=
  (pyEnumerate comments).map (fun ic =>
    { index := ic.1
      raw := ic.2
      severity := analyze_comment_severity ic.2
      tone := get_contextual_tone (analyze_comment_severity ic.2) })

/-!
## `UltimateEmpathethicReviewer.create_summary_analysis`

The ultimate reviewer's keyword table, pattern table and threshold code
(lines 48-61, 123-131, 270-280 of `ultimate_reviewer.py`) are identical to
the advanced reviewer's, so `analyze_comment_severity`,
`detect_code_patterns` and `encouragement_level` are shared; only the
summary template and the engine name interpolation differ.
-/

/-- The `class AIEngine(Enum)` members that `self.engine` can hold after
`_determine_engine` (AUTO is always resolved to one of the two). -/
inductive AIEngine where
  | gemini
  | ollama
deriving DecidableEq, Repr

/-- The `summary_prompts` dict of
`UltimateEmpathethicReviewer.create_summary_analysis`. -/
def ultimate_summary_prompts : List (String × String) :=
  [("extra_high", "This developer faced some tough feedback but shows solid problem-solving instincts. The logical thinking is there - now it's about refining the expression."),
   ("high", "This developer is on a great learning trajectory with excellent fundamentals. These optimizations will level up their Python skills significantly."),
   ("standard", "This developer writes clean, logical code and is ready for advanced optimizations. Excellent foundation to build upon!")]

/-- Ultimate summary template between the selected paragraph and
`{engine_info}`. -/
def ultimateSummaryMid : String :=
  "\n\n**🎯 Key Learning Themes:**\n- **Pythonic Patterns**: Embracing list comprehensions and built-in functions\n- **Performance Awareness**: Understanding when efficiency matters\n- **Code Readability**: Writing self-documenting code\n\n**🚀 Personalized Learning Path:**\n1. **This Week**: Master list comprehensions and boolean operations\n2. **Next 2 Weeks**: Explore Python's itertools and functional programming features  \n3. **This Month**: Study algorithmic complexity and profiling techniques\n\n**💡 Senior Developer Wisdom:**\nThe fact that you're actively seeking feedback shows tremendous growth mindset! These patterns suggest you think algorithmically (fantastic!) - the next level is thinking about code as communication. Every line should tell a story to your future self and teammates.\n\n**🏆 You're Ready For:**\n- Contributing to open source Python projects\n- Mentoring other developers on fundamentals\n- Taking on more complex algorithmic challenges\n\n---\n*\"Every expert was once a beginner. Every pro was once an amateur. Every icon was once an unknown.\" - Robin Sharma*\n\n*Generated by Ultimate Empathetic Code Reviewer v3.0 | Powered by "

/-- Ultimate summary template after `{engine_info}`. -/
def ultimateSummaryTail : String :=
  "*  \n*Built for developers, by developers* ✨\n"

/-- Model of `UltimateEmpathethicReviewer.create_summary_analysis` (lines 270-318).
As in the advanced version, `patterns` is computed and never used. -/
def ultimate_create_summary_analysis (engine : AIEngine) (code_snippet : String)
    (comments : List String) : String :=
  let _patterns := detect_code_patterns code_snippet
  let engine_info := if engine = AIEngine.gemini then "Google Gemini" else "Local Llama 3.1"
  summaryHeader
    ++ ((List.lookup (encouragement_level comments) ultimate_summary_prompts).getD "")
    ++ ultimateSummaryMid ++ engine_info ++ ultimateSummaryTail

/-- No two consecutive characters are both digits ("no run of two or more
consecutive digits"). -/
def noDoubleDigit : List Char → Bool
  | c :: d :: rest => !(c.isDigit && d.isDigit) && noDoubleDigit (d :: rest)
  | _ => true

/-- The code snippet of the spec §8 end-to-end example. -/
def egCode : String :=
  "def f(u):\n  if u == True:\n    return 1"

/-- The comments of the spec §8 end-to-end example. -/
def egComments : List String :=
  ["This is terrible code.", "maybe rename u"]

/-- A five-comment review with exactly four HARSH/CRITICAL comments. -/
def egHarshComments : List String :=
  ["This is terrible code.", "This is bad.", "wrong approach", "sloppy work", "nice job"]

/-!
## General lemmas
-/

theorem prefixOfB_iff (n : List Char) : ∀ h, prefixOfB n h = true ↔ n <+: h := by
  induction n with
  | nil => intro h; simp [prefixOfB, List.nil_prefix]
  | cons a as ih =>
    intro h
    cases h with
    | nil =>
      simp [prefixOfB]
    | cons b bs =>
      simp only [prefixOfB, Bool.and_eq_true, decide_eq_true_eq, ih]
      constructor
      · rintro ⟨rfl, t, rfl⟩
        exact ⟨t, rfl⟩
      · rintro ⟨t, ht⟩
        cases ht
        exact ⟨rfl, t, rfl⟩

theorem infixOfB_iff (n : List Char) : ∀ h, infixOfB n h = true ↔ n <:+: h := by
  intro h
  induction h with
  | nil =>
    simp only [infixOfB, prefixOfB_iff, List.prefix_nil, List.infix_nil]
  | cons b bs ih =>
    simp only [infixOfB, Bool.or_eq_true, prefixOfB_iff, ih]
    constructor
    · rintro (⟨t, ht⟩ | ⟨s, t, ht⟩)
      · exact ⟨[], t, by simpa using ht⟩
      · exact ⟨b :: s, t, by simpa using ht⟩
    · rintro ⟨s, t, hst⟩
      cases s with
      | nil => exact Or.inl ⟨t, by simpa using hst⟩
      | cons x xs =>
        cases hst
        exact Or.inr ⟨xs, t, rfl⟩

theorem containsB_iff (hay needle : String) :
    containsB hay needle = true ↔ ContainsStr hay needle :=
  infixOfB_iff needle.data hay.data

theorem str_data_append (a b : String) : (a ++ b).data = a.data ++ b.data := by
  cases a
  cases b
  rfl

theorem containsStr_refl (s : String) : ContainsStr s s :=
  List.infix_refl s.data

theorem containsStr_append_left (a b n : String) (h : ContainsStr b n) :
    ContainsStr (a ++ b) n := by
  rcases h with ⟨s, t, hst⟩
  refine ⟨a.data ++ s, t, ?_⟩
  rw [str_data_append, ← hst]
  simp

theorem containsStr_append_right (a b n : String) (h : ContainsStr a n) :
    ContainsStr (a ++ b) n := by
  rcases h with ⟨s, t, hst⟩
  refine ⟨s, t ++ b.data, ?_⟩
  rw [str_data_append, ← hst]
  simp

theorem containsStr_mono (hay n m : String) (h1 : ContainsStr hay n)
    (h2 : ContainsStr n m) : ContainsStr hay m :=
  List.IsInfix.trans h2 h1

theorem containsStr_pyJoin (sep : String) (l : List String) (x : String) (hx : x ∈ l) :
    ContainsStr (pyJoin sep l) x := by
  induction l with
  | nil => cases hx
  | cons y ys ih =>
    cases ys with
    | nil =>
      rcases List.mem_cons.mp hx with rfl | h
      · exact containsStr_refl x
      · cases h
    | cons z zs =>
      rcases List.mem_cons.mp hx with rfl | h
      · exact containsStr_append_right _ _ _
          (containsStr_append_right _ _ _ (containsStr_refl x))
      · exact containsStr_append_left _ _ _ (ih h)

theorem enumFrom_length (l : List α) : ∀ n : Nat, (enumFrom n l).length = l.length := by
  induction l with
  | nil => intro n; rfl
  | cons x xs ih => intro n; simp [enumFrom, ih]

theorem pyEnumerate_length (l : List α) : (pyEnumerate l).length = l.length :=
  enumFrom_length l 0

theorem enumFrom_mem (l : List α) :
    ∀ (n i : Nat) (h : i < l.length), (n + i, l.get ⟨i, h⟩) ∈ enumFrom n l := by
  induction l with
  | nil => intro n i h; cases h
  | cons x xs ih =>
    intro n i h
    cases i with
    | zero => simp [enumFrom]
    | succ j =>
      have hj : j < xs.length := Nat.lt_of_succ_lt_succ h
      have := ih (n + 1) j hj
      have harith : n + 1 + j = n + (j + 1) := by omega
      rw [harith] at this
      exact List.mem_cons_of_mem _ this

theorem pyEnumerate_mem (l : List α) (i : Nat) (h : i < l.length) :
    (i, l.get ⟨i, h⟩) ∈ pyEnumerate l := by
  have := enumFrom_mem l 0 i h
  rwa [Nat.zero_add] at this

theorem enumFrom_map_get (f : Nat × α → β) (l : List α) :
    ∀ (n i : Nat) (h : i < l.length) (h' : i < ((enumFrom n l).map f).length),
      ((enumFrom n l).map f).get ⟨i, h'⟩ = f (n + i, l.get ⟨i, h⟩) := by
  induction l with
  | nil => intro n i h; cases h
  | cons x xs ih =>
    intro n i h h'
    cases i with
    | zero => simp [enumFrom]
    | succ j =>
      have hj : j < xs.length := Nat.lt_of_succ_lt_succ h
      have h'' : j < ((enumFrom (n + 1) xs).map f).length := by
        simpa [enumFrom_length] using hj
      have := ih (n + 1) j hj h''
      have harith : n + 1 + j = n + (j + 1) := by omega
      rw [harith] at this
      simpa [enumFrom] using this

theorem magic_numbers_of_noDoubleDigit :
    ∀ (l : List Char) (prev : Option Char), noDoubleDigit l = true →
      magic_numbers_search prev l = false := by
  intro l
  induction l with
  | nil => intro prev _; rfl
  | cons c cs ih =>
    intro prev h
    cases cs with
    | nil => simp [magic_numbers_search]
    | cons d ds =>
      have hnd : noDoubleDigit (c :: d :: ds) = true := h
      simp only [noDoubleDigit, Bool.and_eq_true, Bool.not_eq_true',
        Bool.and_eq_false_iff] at hnd
      have hstep : magic_numbers_search prev (c :: d :: ds) =
          ((boundaryL prev && c.isDigit && (d.isDigit && digitRunEndOk ds))
            || magic_numbers_search (some c) (d :: ds)) := rfl
      rw [hstep, ih (some c) hnd.2, Bool.or_false]
      rcases hnd.1 with hc | hd
      · simp [hc]
      · simp [hd]

/-- Over exact rationals, `a > b * 0.6` is the integer comparison
`5 * a > 3 * b` (the literal `0.6` is exactly `3/5` in `ℚ`). -/
theorem encouragement_cond_iff (a b : Nat) :
    ((a : ℚ) > (b : ℚ) * 0.6) ↔ 5 * a > 3 * b := by
  have h6 : (0.6 : ℚ) = 3 / 5 := by norm_num
  rw [h6]
  constructor
  · intro h
    have h5 : (3 : ℚ) * (b : ℚ) < 5 * (a : ℚ) := by linarith
    exact_mod_cast h5
  · intro h
    have h5 : (3 : ℚ) * (b : ℚ) < 5 * (a : ℚ) := by exact_mod_cast h
    linarith

/-- Computable form of the threshold policy. -/
theorem encouragement_level_eq (comments : List String) :
    encouragement_level comments =
      if 5 * total_severity comments > 3 * comments.length then "extra_high"
      else if total_severity comments > 0 then "high"
      else "standard" := by
  simp only [encouragement_level, encouragement_cond_iff]


/-!
## Claims
-/

/-- C1: `analyze_comment_severity` tests the four keyword sets in the fixed
priority order CRITICAL, HARSH, MODERATE, GENTLE, and the first set with a
substring match wins: whenever the keyword set of severity `s` matches the
lowercased comment and no strictly harsher set matches, classification
returns `s`; in particular a comment containing keywords of both a harsher
and a milder set classifies at the harsher one. -/
theorem analyze_priority_order (comment : String) (s : CommentSeverity)
    (hmatch : keywordMatch (keywordsOf s) (pyLower comment) = true)
    (hmax : ∀ t : CommentSeverity, sevRank t > sevRank s →
      keywordMatch (keywordsOf t) (pyLower comment) = false) :
    analyze_comment_severity comment = s := by
  cases s with
  | critical =>
    simp [analyze_comment_severity, severity_keywords, List.find?, hmatch]
  | harsh =>
    have h3 := hmax .critical (by decide)
    simp [analyze_comment_severity, severity_keywords, List.find?, hmatch, h3]
  | moderate =>
    have h3 := hmax .critical (by decide)
    have h2 := hmax .harsh (by decide)
    simp [analyze_comment_severity, severity_keywords, List.find?, hmatch, h3, h2]
  | gentle =>
    have h3 := hmax .critical (by decide)
    have h2 := hmax .harsh (by decide)
    have h1 := hmax .moderate (by decide)
    simp [analyze_comment_severity, severity_keywords, List.find?, hmatch, h3, h2, h1]

/-- C1 witness: a comment containing both "should" (MODERATE) and
"terrible" (CRITICAL) classifies as CRITICAL. -/
theorem analyze_priority_order_witness :
    keywordMatch (keywordsOf .critical)
      (pyLower "You should rewrite this, it is terrible") = true ∧
    (∀ t : CommentSeverity, sevRank t > sevRank .critical →
      keywordMatch (keywordsOf t)
        (pyLower "You should rewrite this, it is terrible") = false) ∧
    analyze_comment_severity "You should rewrite this, it is terrible" = .critical :=
  ⟨by decide, by decide,
    analyze_priority_order "You should rewrite this, it is terrible" .critical
      (by decide) (by decide)⟩

/-- C6: the tone selector is a static table: its keys are exactly the four
severities in declaration order, the four phrases are pairwise distinct
(one-to-one), every `CommentSeverity` is a key — so an "input outside the
mapped severities" does not exist in the closed enumeration — and the
silent `dict.get` fallback phrase is never returned. -/
theorem get_contextual_tone_table :
    tone_map.map Prod.fst =
      [CommentSeverity.critical, CommentSeverity.harsh, CommentSeverity.moderate,
        CommentSeverity.gentle] ∧
    (tone_map.map Prod.snd).Nodup ∧
    (∀ s : CommentSeverity, (List.lookup s tone_map).isSome = true) ∧
    (∀ s : CommentSeverity, get_contextual_tone s ≠ "Let's look at this feedback") := by
  decide

/-- C6 witness: at CRITICAL, the table lookup succeeds and the fallback
phrase is not returned. -/
theorem get_contextual_tone_table_witness :
    (List.lookup CommentSeverity.critical tone_map).isSome = true ∧
    get_contextual_tone CommentSeverity.critical ≠ "Let's look at this feedback" :=
  ⟨get_contextual_tone_table.2.2.1 CommentSeverity.critical,
   get_contextual_tone_table.2.2.2 CommentSeverity.critical⟩

/-- C7: classification is total, and on any comment in which no keyword of
any of the four sets occurs case-insensitively as a substring — the empty
string included — it returns the GENTLE default. -/
theorem analyze_total_default (comment : String)
    (h : ∀ p ∈ severity_keywords, ∀ k ∈ p.2, ¬ ContainsStr (pyLower comment) k) :
    analyze_comment_severity comment = .gentle := by
  have hfind :
      severity_keywords.find? (fun p => keywordMatch p.2 (pyLower comment)) = none := by
    rw [List.find?_eq_none]
    intro p hp hmatch
    rw [keywordMatch, List.any_eq_true] at hmatch
    rcases hmatch with ⟨k, hk, hck⟩
    exact h p hp k hk ((containsB_iff _ _).mp hck)
  simp only [analyze_comment_severity, hfind]

/-- C7 witness: the empty string matches no keyword set and classifies
GENTLE. -/
theorem analyze_total_default_witness :
    (∀ p ∈ severity_keywords, ∀ k ∈ p.2, ¬ ContainsStr (pyLower "") k) ∧
    analyze_comment_severity "" = .gentle :=
  ⟨by decide, analyze_total_default "" (by decide)⟩

/-- The master prompt, unfolded into its eleven concatenated components. -/
theorem create_master_prompt_decomp (code_snippet : String) (comments : List String) :
    create_master_prompt code_snippet comments =
      promptHeader ++ code_snippet ++ promptAfterCode ++ detectedPatternsText code_snippet
        ++ promptAfterPatterns
        ++ pyJoin "\n" ((pyEnumerate comments).map (fun ic => severityLine ic.1 ic.2))
        ++ promptAfterSeverity
        ++ pyJoin "\n" ((pyEnumerate comments).map (fun ic => commentEntry ic.1 ic.2))
        ++ promptAfterComments ++ comments.headD "PLACEHOLDER" ++ promptTail := rfl

/-- The summary, unfolded into its three concatenated components. -/
theorem create_summary_analysis_decomp (code_snippet : String) (comments : List String) :
    create_summary_analysis code_snippet comments =
      summaryHeader
        ++ (List.lookup (encouragement_level comments) summary_prompts).getD ""
        ++ summaryTail := rfl

/-- The report, unfolded into its seven concatenated components. -/
theorem process_review_decomp (ai_response code_snippet : String)
    (review_comments : List String) :
    process_review ai_response code_snippet review_comments =
      reportHeader ++ code_snippet ++ reportAfterCode ++ ai_response ++ "\n\n"
        ++ create_summary_analysis code_snippet review_comments ++ reportTail := rfl

/-- C2: on any non-empty comment sequence the encouragement level is the
three-way threshold of the claim: EXTRA_HIGH iff
`harsh_count > 0.6 * total`, HIGH iff `0 < harsh_count <= 0.6 * total`,
STANDARD iff `harsh_count == 0`, where `harsh_count` counts the
HARSH/CRITICAL comments. -/
theorem level_for_thresholds (comments : List String) (_hne : comments ≠ []) :
    (encouragement_level comments = "extra_high" ↔
      (total_severity comments : ℚ) > 0.6 * (comments.length : ℚ)) ∧
    (encouragement_level comments = "high" ↔
      (0 < total_severity comments ∧
        (total_severity comments : ℚ) ≤ 0.6 * (comments.length : ℚ))) ∧
    (encouragement_level comments = "standard" ↔ total_severity comments = 0) := by
  have hcond : ((total_severity comments : ℚ) > 0.6 * (comments.length : ℚ)) ↔
      5 * total_severity comments > 3 * comments.length := by
    rw [mul_comm]
    exact encouragement_cond_iff _ _
  rw [encouragement_level_eq]
  by_cases h1 : 5 * total_severity comments > 3 * comments.length
  · rw [if_pos h1]
    refine ⟨iff_of_true rfl (hcond.mpr h1), ?_, ?_⟩
    · refine iff_of_false (by decide) ?_
      rintro ⟨_, hle⟩
      exact not_lt.mpr hle (hcond.mpr h1)
    · refine iff_of_false (by decide) ?_
      intro h0
      rw [h0] at h1
      omega
  · rw [if_neg h1]
    by_cases h2 : total_severity comments > 0
    · rw [if_pos h2]
      refine ⟨iff_of_false (by decide) (fun hq => h1 (hcond.mp hq)), ?_, ?_⟩
      · exact iff_of_true rfl ⟨h2, not_lt.mp (fun hlt => h1 (hcond.mp hlt))⟩
      · exact iff_of_false (by decide) (fun h0 => by omega)
    · rw [if_neg h2]
      refine ⟨iff_of_false (by decide) (fun hq => h1 (hcond.mp hq)), ?_, ?_⟩
      · exact iff_of_false (by decide) (fun hx => absurd hx.1 h2)
      · exact iff_of_true rfl (by omega)

/-- C2 witness: a concrete five-comment review with four HARSH/CRITICAL
comments satisfies the thresholds and lands on EXTRA_HIGH. -/
theorem level_for_thresholds_witness :
    (egHarshComments ≠ ([] : List String)) ∧
    total_severity egHarshComments = 4 ∧
    egHarshComments.length = 5 ∧
    encouragement_level egHarshComments = "extra_high" ∧
    ((encouragement_level egHarshComments = "extra_high" ↔
      (total_severity egHarshComments : ℚ) > 0.6 * (egHarshComments.length : ℚ)) ∧
    (encouragement_level egHarshComments = "high" ↔
      (0 < total_severity egHarshComments ∧
        (total_severity egHarshComments : ℚ) ≤ 0.6 * (egHarshComments.length : ℚ))) ∧
    (encouragement_level egHarshComments = "standard" ↔
      total_severity egHarshComments = 0)) :=
  ⟨by decide, by decide, by decide,
    by rw [encouragement_level_eq]; decide,
    level_for_thresholds egHarshComments (by decide)⟩

/-- C3 counterexample: a request whose comments sequence is empty is not
rejected anywhere — `main`'s validation checks only that the two required
keys are present, the encouragement policy applied to zero comments
returns "standard" instead of failing, and the summary builder returns the
standard-level document. -/
theorem empty_comments_counterexample :
    validate_input ["code_snippet", "review_comments"] = Except.ok () ∧
    encouragement_level [] = "standard" ∧
    create_summary_analysis egCode [] =
      summaryHeader
        ++ "This developer writes clean, logical code and is ready for some advanced optimizations. Great foundation to build upon!"
        ++ summaryTail := by
  have h0 : encouragement_level [] = "standard" := by
    rw [encouragement_level_eq]; decide
  refine ⟨rfl, h0, ?_⟩
  rw [create_summary_analysis_decomp, h0]
  rfl

/-- C3 amended: processing a review with an empty comments sequence does
not fail: input validation checks only key presence, the encouragement
policy returns STANDARD on zero comments (`0 > 0.6 * 0` and `0 > 0` are
both false), the prompt composer substitutes the literal PLACEHOLDER for
the missing first comment, and a complete report containing the
standard-level closing paragraph is produced. -/
theorem process_empty_comments (code ai : String) :
    validate_input ["code_snippet", "review_comments"] = Except.ok () ∧
    encouragement_level [] = "standard" ∧
    ContainsStr (process_review ai code [])
      "This developer writes clean, logical code and is ready for some advanced optimizations. Great foundation to build upon!" ∧
    ContainsStr (create_master_prompt code []) "PLACEHOLDER" := by
  have h0 : encouragement_level [] = "standard" := by
    rw [encouragement_level_eq]; decide
  refine ⟨rfl, h0, ?_, ?_⟩
  · have hsum : ContainsStr (create_summary_analysis code [])
        "This developer writes clean, logical code and is ready for some advanced optimizations. Great foundation to build upon!" := by
      rw [create_summary_analysis_decomp, h0]
      exact containsStr_append_right _ _ _
        (containsStr_append_left _ _ _ (containsStr_refl _))
    rw [process_review_decomp]
    exact containsStr_append_right _ _ _
      (containsStr_append_left _ _ _ hsum)
  · rw [create_master_prompt_decomp]
    exact containsStr_append_right _ _ _
      (containsStr_append_left _ _ _ (containsStr_refl "PLACEHOLDER"))

set_option maxHeartbeats 1600000 in
/-- C4: the master prompt embeds the snippet verbatim, the whole
newline-joined numbered comment list in input order, each original comment
verbatim in its quoted numbered entry, one severity+tone line per comment,
and the active pattern names joined by ", " — or the explicit marker
"Clean basic structure" when no pattern flag is active. -/
theorem create_master_prompt_contents (code_snippet : String) (comments : List String)
    (_hne : comments ≠ []) :
    ContainsStr (create_master_prompt code_snippet comments) code_snippet ∧
    ContainsStr (create_master_prompt code_snippet comments)
      (pyJoin "\n" ((pyEnumerate comments).map (fun ic => commentEntry ic.1 ic.2))) ∧
    (∀ (i : Nat) (h : i < comments.length),
      ContainsStr (create_master_prompt code_snippet comments)
        (commentEntry i (comments.get ⟨i, h⟩))) ∧
    (∀ (i : Nat) (h : i < comments.length),
      ContainsStr (create_master_prompt code_snippet comments)
        (severityLine i (comments.get ⟨i, h⟩))) ∧
    (activePatterns code_snippet = [] →
      ContainsStr (create_master_prompt code_snippet comments) "Clean basic structure") ∧
    (activePatterns code_snippet ≠ [] →
      ContainsStr (create_master_prompt code_snippet comments)
        (pyJoin ", " (activePatterns code_snippet))) := by
  have hjoinC : ContainsStr (create_master_prompt code_snippet comments)
      (pyJoin "\n" ((pyEnumerate comments).map (fun ic => commentEntry ic.1 ic.2))) := by
    rw [create_master_prompt_decomp]
    exact containsStr_append_right _ _ _
      (containsStr_append_right _ _ _
        (containsStr_append_right _ _ _
          (containsStr_append_left _ _ _ (containsStr_refl _))))
  have hsevC : ContainsStr (create_master_prompt code_snippet comments)
      (pyJoin "\n" ((pyEnumerate comments).map (fun ic => severityLine ic.1 ic.2))) := by
    rw [create_master_prompt_decomp]
    exact containsStr_append_right _ _ _
      (containsStr_append_right _ _ _
        (containsStr_append_right _ _ _
          (containsStr_append_right _ _ _
            (containsStr_append_right _ _ _
              (containsStr_append_left _ _ _ (containsStr_refl _))))))
  have hpatC : ContainsStr (create_master_prompt code_snippet comments)
      (detectedPatternsText code_snippet) := by
    rw [create_master_prompt_decomp]
    exact containsStr_append_right _ _ _
      (containsStr_append_right _ _ _
        (containsStr_append_right _ _ _
          (containsStr_append_right _ _ _
            (containsStr_append_right _ _ _
              (containsStr_append_right _ _ _
                (containsStr_append_right _ _ _
                  (containsStr_append_left _ _ _ (containsStr_refl _))))))))
  refine ⟨?_, hjoinC, ?_, ?_, ?_, ?_⟩
  · rw [create_master_prompt_decomp]
    exact containsStr_append_right _ _ _
      (containsStr_append_right _ _ _
        (containsStr_append_right _ _ _
          (containsStr_append_right _ _ _
            (containsStr_append_right _ _ _
              (containsStr_append_right _ _ _
                (containsStr_append_right _ _ _
                  (containsStr_append_right _ _ _
                    (containsStr_append_right _ _ _
                      (containsStr_append_left _ _ _ (containsStr_refl _))))))))))
  · intro i h
    have hmem : commentEntry i (comments.get ⟨i, h⟩) ∈
        (pyEnumerate comments).map (fun ic => commentEntry ic.1 ic.2) :=
      List.mem_map_of_mem _ (pyEnumerate_mem comments i h)
    exact containsStr_mono _ _ _ hjoinC (containsStr_pyJoin "\n" _ _ hmem)
  · intro i h
    have hmem : severityLine i (comments.get ⟨i, h⟩) ∈
        (pyEnumerate comments).map (fun ic => severityLine ic.1 ic.2) :=
      List.mem_map_of_mem _ (pyEnumerate_mem comments i h)
    exact containsStr_mono _ _ _ hsevC (containsStr_pyJoin "\n" _ _ hmem)
  · intro h
    have hdp : detectedPatternsText code_snippet = "Clean basic structure" := by
      simp [detectedPatternsText, h]
    rw [hdp] at hpatC
    exact hpatC
  · intro h
    have hdp : detectedPatternsText code_snippet =
        pyJoin ", " (activePatterns code_snippet) := by
      unfold detectedPatternsText
      cases hap : activePatterns code_snippet with
      | nil => exact absurd hap h
      | cons x xs => simp [hap]
    rw [hdp] at hpatC
    exact hpatC

/-- C4 witness: the spec §8 end-to-end input (snippet with `u == True`,
comments "This is terrible code." and "maybe rename u"). -/
theorem create_master_prompt_contents_witness :
    (egComments ≠ ([] : List String)) ∧
    (ContainsStr (create_master_prompt egCode egComments) egCode ∧
    ContainsStr (create_master_prompt egCode egComments)
      (pyJoin "\n" ((pyEnumerate egComments).map (fun ic => commentEntry ic.1 ic.2))) ∧
    (∀ (i : Nat) (h : i < egComments.length),
      ContainsStr (create_master_prompt egCode egComments)
        (commentEntry i (egComments.get ⟨i, h⟩))) ∧
    (∀ (i : Nat) (h : i < egComments.length),
      ContainsStr (create_master_prompt egCode egComments)
        (severityLine i (egComments.get ⟨i, h⟩))) ∧
    (activePatterns egCode = [] →
      ContainsStr (create_master_prompt egCode egComments) "Clean basic structure") ∧
    (activePatterns egCode ≠ [] →
      ContainsStr (create_master_prompt egCode egComments)
        (pyJoin ", " (activePatterns egCode)))) :=
  ⟨by decide, create_master_prompt_contents egCode egComments (by decide)⟩

/-- C5: the composed report embeds the collaborator text verbatim —
whatever it is, error placeholder strings included — plus the original
snippet verbatim and the canned closing paragraph selected by the
computed encouragement level; the report builder is a total function of
the collaborator text, so a collaborator failure never prevents the
report. -/
theorem process_review_report (ai_response code_snippet : String)
    (review_comments : List String) :
    ContainsStr (process_review ai_response code_snippet review_comments) ai_response ∧
    ContainsStr (process_review ai_response code_snippet review_comments) code_snippet ∧
    (List.lookup (encouragement_level review_comments) summary_prompts).isSome = true ∧
    ContainsStr (process_review ai_response code_snippet review_comments)
      ((List.lookup (encouragement_level review_comments) summary_prompts).getD "") := by
  have hsum : ContainsStr (create_summary_analysis code_snippet review_comments)
      ((List.lookup (encouragement_level review_comments) summary_prompts).getD "") := by
    rw [create_summary_analysis_decomp]
    exact containsStr_append_right _ _ _
      (containsStr_append_left _ _ _ (containsStr_refl _))
  refine ⟨?_, ?_, ?_, ?_⟩
  · rw [process_review_decomp]
    exact containsStr_append_right _ _ _
      (containsStr_append_right _ _ _
        (containsStr_append_right _ _ _
          (containsStr_append_left _ _ _ (containsStr_refl _))))
  · rw [process_review_decomp]
    exact containsStr_append_right _ _ _
      (containsStr_append_right _ _ _
        (containsStr_append_right _ _ _
          (containsStr_append_right _ _ _
            (containsStr_append_right _ _ _
              (containsStr_append_left _ _ _ (containsStr_refl _))))))
  · rw [encouragement_level_eq]
    by_cases h1 : 5 * total_severity review_comments > 3 * review_comments.length
    · rw [if_pos h1]; rfl
    · rw [if_neg h1]
      by_cases h2 : total_severity review_comments > 0
      · rw [if_pos h2]; rfl
      · rw [if_neg h2]; rfl
  · rw [process_review_decomp]
    exact containsStr_append_right _ _ _
      (containsStr_append_left _ _ _ hsum)

/-- C8: a snippet containing `u == True` activates the
boolean-redundancy flag, and a snippet with no run of two or more
consecutive digits leaves the magic-numbers flag inactive. -/
theorem detect_flags (code : String) :
    (ContainsStr code "u == True" →
      List.lookup "boolean_redundancy" (detect_code_patterns code) = some true) ∧
    (noDoubleDigit code.data = true →
      List.lookup "magic_numbers" (detect_code_patterns code) = some false) := by
  constructor
  · intro h
    have h1 : ContainsStr code "== True" :=
      containsStr_mono _ _ _ h (by decide)
    have h2 : containsB code "== True" = true := (containsB_iff _ _).mpr h1
    have h3 : List.lookup "boolean_redundancy" (detect_code_patterns code)
        = some (boolean_redundancy_match code) := rfl
    rw [h3]
    simp only [boolean_redundancy_match, h2, Bool.true_or]
  · intro h
    have h3 : List.lookup "magic_numbers" (detect_code_patterns code)
        = some (magic_numbers_search none code.data) := rfl
    rw [h3, magic_numbers_of_noDoubleDigit code.data none h]

/-- C8 witness: `"if u == True:"` activates boolean-redundancy;
`"x = 5 + y7"` (no two consecutive digits) leaves magic-numbers off. -/
theorem detect_flags_witness :
    (ContainsStr "if u == True:" "u == True" ∧
      List.lookup "boolean_redundancy" (detect_code_patterns "if u == True:") = some true) ∧
    (noDoubleDigit "x = 5 + y7".data = true ∧
      List.lookup "magic_numbers" (detect_code_patterns "x = 5 + y7") = some false) :=
  ⟨⟨by decide, (detect_flags "if u == True:").1 (by decide)⟩,
   ⟨by decide, (detect_flags "x = 5 + y7").2 (by decide)⟩⟩

/-- C9: classifying all comments yields exactly one ClassifiedComment per
input comment, in the same order: the output has the input's length and
its i-th element is built from the i-th input comment, carrying index i,
the raw text, its severity and its tone. -/
theorem classifyAll_correspondence (comments : List String) (_hne : comments ≠ []) :
    (classifyAll comments).length = comments.length ∧
    ∀ (i : Nat) (h : i < comments.length) (h' : i < (classifyAll comments).length),
      (classifyAll comments).get ⟨i, h'⟩ =
        { index := i
          raw := comments.get ⟨i, h⟩
          severity := analyze_comment_severity (comments.get ⟨i, h⟩)
          tone := get_contextual_tone (analyze_comment_severity (comments.get ⟨i, h⟩)) } := by
  constructor
  · rw [show classifyAll comments =
        (enumFrom 0 comments).map (fun ic =>
          ({ index := ic.1
             raw := ic.2
             severity := analyze_comment_severity ic.2
             tone := get_contextual_tone (analyze_comment_severity ic.2) }
            : ClassifiedComment)) from rfl,
      List.length_map, enumFrom_length]
  · intro i h h'
    have h'' : i < ((enumFrom 0 comments).map (fun ic =>
        ({ index := ic.1
           raw := ic.2
           severity := analyze_comment_severity ic.2
           tone := get_contextual_tone (analyze_comment_severity ic.2) }
          : ClassifiedComment))).length := h'
    have hget := enumFrom_map_get (fun ic =>
        ({ index := ic.1
           raw := ic.2
           severity := analyze_comment_severity ic.2
           tone := get_contextual_tone (analyze_comment_severity ic.2) }
          : ClassifiedComment)) comments 0 i h h''
    simpa [classifyAll, pyEnumerate] using hget

/-- C9 witness: the two-comment example review. -/
theorem classifyAll_correspondence_witness :
    (egComments ≠ ([] : List String)) ∧
    ((classifyAll egComments).length = egComments.length ∧
    ∀ (i : Nat) (h : i < egComments.length) (h' : i < (classifyAll egComments).length),
      (classifyAll egComments).get ⟨i, h'⟩ =
        { index := i
          raw := egComments.get ⟨i, h⟩
          severity := analyze_comment_severity (egComments.get ⟨i, h⟩)
          tone := get_contextual_tone (analyze_comment_severity (egComments.get ⟨i, h⟩)) }) :=
  ⟨by decide, classifyAll_correspondence egComments (by decide)⟩

/-- C10: the closing summary is independent of the code snippet — in both
`create_summary_analysis` implementations (advanced and ultimate) the
pattern flags computed from the snippet are never used, so any two
snippets yield identical summary text for a fixed comment list. -/
theorem create_summary_analysis_snippet_independent (s1 s2 : String)
    (comments : List String) :
    create_summary_analysis s1 comments = create_summary_analysis s2 comments ∧
    ∀ engine : AIEngine,
      ultimate_create_summary_analysis engine s1 comments =
        ultimate_create_summary_analysis engine s2 comments :=
  ⟨rfl, fun _ => rfl⟩

end EmpathReviewer
